import Mathlib

/-!
# Verification of `mock_llm_service.py`

A shallow embedding of the repository's single source file,
`src/mock_llm_service.py`: a mock HTTP service that answers every POST
request with the fixed JSON payload `{"score": <score>, "label": "<label>"}`,
where `label` comes from the command line and `score` is a fixed lookup on
the label.  The embedding models:

* the score lookup in `run` (lines 17-24);
* the `Handler.do_POST` method (lines 6-14), including the exact JSON body
  produced by `json.dumps` (key order, separators, string escaping with
  `ensure_ascii=True`);
* the method dispatch of the standard library's `BaseHTTPRequestHandler`
  (a request whose method has no `do_<METHOD>` handler gets a
  501 "Unsupported method" error response);
* the `__main__` block (lines 32-38): argument-count check, `int(sys.argv[2])`
  conversion, and the call to `run`, with socket binding represented by an
  explicit environment flag (`bindOk`).

Python floats never undergo arithmetic here: the only reachable score values
are the exactly-representable floats -1.0, 0.0 and 1.0, so `score` is
modelled as a rational number and `repr` of such an integral float as
`toString n ++ ".0"`.
-/

namespace MockLLM

/-- The score lookup of `run` (src/mock_llm_service.py lines 17-24):
`left` → -1.0, `center` → 0.0, `right` → 1.0, anything else → 0.0. -/
def scoreOf (label : String) : Rat :=
  if label = "left" then -1
  else if label = "center" then 0
  else if label = "right" then 1
  else 0

/-- An inbound HTTP request as seen by the handler: method, path, header
list and raw body bytes.  `Handler.do_POST` reads none of these fields. -/
structure Request where
  method : String
  path : String
  headers : List (String × String)
  body : List Nat
deriving DecidableEq

/-- The process-wide values attached to the server object in `run`
(lines 27-28: `server.label = label; server.score = score`). -/
structure ServerState where
  label : String
  score : Rat
deriving DecidableEq

/-- An outbound HTTP response: status code, the headers the handler sends
explicitly, and the body.  (`send_response` additionally emits `Server` and
`Date` headers; `Date` is wall-clock time and is not modelled - no claim
refers to those headers.) -/
structure Response where
  status : Nat
  headers : List (String × String)
  body : String
deriving DecidableEq

/-! ## The JSON body produced by `json.dumps` -/

/-- Lowercase hex digit, as used by Python's `json` encoder in
`\uXXXX` escapes. -/
def hexDig (d : Nat) : Char :=
  Char.ofNat (if d < 10 then 48 + d else 87 + d)

/-- Big-endian four-digit hex rendering of `n < 0x10000`. -/
def toHex4 (n : Nat) : List Char :=
  [hexDig (n / 4096 % 16), hexDig (n / 256 % 16), hexDig (n / 16 % 16), hexDig (n % 16)]

/-- Escaping of one character by `json.dumps` (CPython `json.encoder`,
`ensure_ascii=True`): `"` and `\` get two-character escapes, the five
control characters with short names get those, any other character outside
printable ASCII `0x20..0x7e` becomes `\uXXXX` (a surrogate pair for
characters beyond the Basic Multilingual Plane), and printable ASCII is
emitted verbatim. -/
def escapeChar (c : Char) : List Char :=
  let n := c.toNat
  if n = 34 then ['\\', '"']
  else if n = 92 then ['\\', '\\']
  else if n = 8 then ['\\', 'b']
  else if n = 9 then ['\\', 't']
  else if n = 10 then ['\\', 'n']
  else if n = 12 then ['\\', 'f']
  else if n = 13 then ['\\', 'r']
  else if n < 32 then '\\' :: 'u' :: toHex4 n
  else if n < 127 then [c]
  else if n < 65536 then '\\' :: 'u' :: toHex4 n
  else
    '\\' :: 'u' :: toHex4 (55296 + (n - 65536) / 1024) ++
      ('\\' :: 'u' :: toHex4 (56320 + (n - 65536) % 1024))

/-- Escaping of a whole string by `json.dumps` (character by character). -/
def encodeChars : List Char → List Char
  | [] => []
  | c :: rest => escapeChar c ++ encodeChars rest

/-- String-level wrapper for `encodeChars`. -/
def pyJsonEscape (s : String) : String := ⟨encodeChars s.data⟩

/-- Rendering (Python `repr`) of a float holding an integral value `q` (every reachable
score is one of the integral floats -1.0, 0.0, 1.0): the integer followed
by `.0`. -/
def pyFloatRepr (q : Rat) : String := toString q.num ++ ".0"

/-- The exact body built by `json.dumps({"score": score, "label": label})`
(line 14): keys in insertion order `score` then `label`, default
separators `", "` and `": "`, `ensure_ascii` escaping of the label. -/
def pyJsonDumps (score : Rat) (label : String) : String :=
  "\x7b\"score\": " ++ pyFloatRepr score ++ ", \"label\": \"" ++ pyJsonEscape label ++ "\"\x7d"

/-! ## The request handler -/

/-- Method `Handler.do_POST` (lines 6-14): ignores the request entirely and sends
status 200, header `Content-type: application/json`, and the JSON dump of
`{"score": self.server.score, "label": self.server.label}`. -/
def do_POST (st : ServerState) (_req : Request) : Response :=
  { status := 200
  , headers := [("Content-type", "application/json")]
  , body := pyJsonDumps st.score st.label }

/-- Modelled from the Python standard library (`http.server`,
`BaseHTTPRequestHandler.send_error`), which is not part of this repository:
the error response produced for a request whose method has no
`do_<METHOD>` attribute on the handler class - status 501 with an
HTML error page mentioning "Unsupported method". -/
def unsupportedMethod (m : String) : Response :=
  { status := 501
  , headers := [("Content-Type", "text/html;charset=utf-8"), ("Connection", "close")]
  , body := "Unsupported method (" ++ m ++ ")" }

/-- Modelled from the Python standard library (`http.server`,
`BaseHTTPRequestHandler.handle_one_request`), which is not part of this
repository: dispatch on the request method.  The `Handler` class of
src/mock_llm_service.py defines only `do_POST`, so every other method
falls to the 501 error path. -/
def handleRequest (st : ServerState) (req : Request) : Response :=
  if req.method = "POST" then do_POST st req else unsupportedMethod req.method

/-- One request-response cycle of the running server: the handler produces
a response and - since `do_POST` only reads `self.server.score` and
`self.server.label` and assigns nothing - leaves the server state as it
was. -/
def serve (st : ServerState) (req : Request) : ServerState × Response :=
  (st, handleRequest st req)

/-- A whole sequence of request-response cycles, threading the server
state through. -/
def serveAll (st : ServerState) : List Request → ServerState × List Response
  | [] => (st, [])
  | req :: reqs =>
    let (st', resp) := serve st req
    let (st'', resps) := serveAll st' reqs
    (st'', resp :: resps)

/-- ASCII lower-casing of one character, for case-insensitive header-name
comparison (HTTP field names are case-insensitive, RFC 9110 §5.1). -/
def asciiLowerChar (c : Char) : Char :=
  if 65 ≤ c.toNat ∧ c.toNat ≤ 90 then Char.ofNat (c.toNat + 32) else c

/-- Header-name normal form: the characters, ASCII lower-cased. -/
def headerNameLower (s : String) : List Char := s.data.map asciiLowerChar

/-- The header list carries the given header field, comparing the field
name case-insensitively as HTTP prescribes. -/
def hasHeaderCI (hs : List (String × String)) (name value : String) : Prop :=
  ∃ p ∈ hs, headerNameLower p.1 = headerNameLower name ∧ p.2 = value

/-! ## Startup (`run` and the `__main__` block) -/

/-- The observable outcome of one program invocation. -/
inductive ProgResult where
  /-- Outcome of `len(sys.argv) != 3`: the usage message is printed to standard output
  and the process exits with the given code, before any socket work. -/
  | usageExit (stdout : String) (code : Nat)
  /-- Outcome when `int(sys.argv[2])` raised `ValueError`; the exception is uncaught, so
  the interpreter terminates with a non-zero status before `run` is called
  and before any socket is bound. -/
  | valueError (badArg : String)
  /-- Outcome when `HTTPServer(('', port), Handler)` failed to bind; there is no
  `try`/`except` anywhere, so the exception propagates out of `run` and out
  of the `__main__` block and the process terminates without serving. -/
  | bindError
  /-- The listener is bound; the startup message was printed and
  `serve_forever` runs with the given server state. -/
  | serving (st : ServerState) (port : Int) (stdout : String)
deriving DecidableEq

/-- Holds (`true`) exactly for the outcomes in which a listening socket was
successfully bound. -/
def ProgResult.socketBound : ProgResult → Bool
  | .serving _ _ _ => true
  | _ => false

/-- Holds (`true`) exactly for the outcome in which the server loop
(`serve_forever`) is entered. -/
def ProgResult.isServing : ProgResult → Bool
  | .serving _ _ _ => true
  | _ => false

/-- Function `run` (lines 16-30): compute the score from the label, construct the
server (which binds the socket - the environment flag `bindOk` says whether
the operating system lets the bind succeed), attach `label` and `score` to
it, print the startup message and serve forever. -/
def run (label : String) (port : Int) (bindOk : Bool) : ProgResult :=
  let score := scoreOf label
  if bindOk then
    ProgResult.serving ⟨label, score⟩ port
      ("Starting mock LLM service for " ++ label ++ " on port " ++ toString port ++ "...")
  else ProgResult.bindError

/-- The usage message printed by the `__main__` block (line 34). -/
def usageMsg : String := "Usage: python mock_llm_service.py <label> <port>"

/-- Python's "space" characters within ASCII, as stripped by `int(str)`:
tab, LF, VT, FF, CR (9-13), FS, GS, RS, US and space (28-32). -/
def pyIsSpace (c : Char) : Bool :=
  (9 ≤ c.toNat && c.toNat ≤ 13) || (28 ≤ c.toNat && c.toNat ≤ 32)

/-- Decimal value of an ASCII digit. -/
def digitVal (c : Char) : Option Nat :=
  if 48 ≤ c.toNat && c.toNat ≤ 57 then some (c.toNat - 48) else none

/-- Digits after the first: a run of ASCII digits in which single
underscores may appear between digits (CPython literal grammar for
`int(str)`), accumulated into `acc`.  Any other character makes the whole
conversion fail. -/
def pyDigitsRest (acc : Nat) : List Char → Option Nat
  | [] => some acc
  | '_' :: c :: rest =>
    match digitVal c with
    | some d => pyDigitsRest (10 * acc + d) rest
    | none => none
  | '_' :: [] => none
  | c :: rest =>
    match digitVal c with
    | some d => pyDigitsRest (10 * acc + d) rest
    | none => none

/-- An unsigned decimal literal: at least one digit, underscores only
between digits. -/
def pyUInt : List Char → Option Nat
  | [] => none
  | c :: rest =>
    match digitVal c with
    | some d => pyDigitsRest d rest
    | none => none

/-- Modelled from the Python builtin `int(str)` (not part of this
repository), restricted to ASCII input: strip surrounding whitespace, an
optional single sign, then a non-empty underscore-grouped digit run;
everything else raises `ValueError`.  (On non-ASCII input CPython also
accepts Unicode digits and whitespace; the theorems that rely on a failing
conversion therefore assume an ASCII argument.) -/
def pyInt (s : String) : Option Int :=
  let cs := ((s.data.dropWhile pyIsSpace).reverse.dropWhile pyIsSpace).reverse
  match cs with
  | '-' :: rest => (pyUInt rest).map (fun n => -(n : Int))
  | '+' :: rest => (pyUInt rest).map (fun n => (n : Int))
  | rest => (pyUInt rest).map (fun n => (n : Int))

/-- The `__main__` block (lines 32-38): if `len(sys.argv) != 3` print the
usage message and exit with code 1; otherwise convert `sys.argv[2]` with
`int` (uncaught `ValueError` on failure) and call `run`.  `argv` models
`sys.argv`, so `argv[0]` is the script name. -/
def main (argv : List String) (bindOk : Bool) : ProgResult :=
  if argv.length ≠ 3 then ProgResult.usageExit usageMsg 1
  else
    match pyInt (argv.getD 2 "") with
    | none => ProgResult.valueError (argv.getD 2 "")
    | some port => run (argv.getD 1 "") port bindOk

/-! ## A JSON reader for the response body

To state that the body written by `do_POST` is valid JSON with the keys in
the order `score`, `label`, and that the `label` field decodes back to the
original string, we define an independent reader following the JSON grammar
(RFC 8259) for the fragment the body can use: an object of string keys,
one number value and one string value.  String unescaping follows the JSON
string grammar as CPython's `json` decoder implements it in strict mode
(control characters below `0x20` must be escaped; `\uXXXX` escapes;
surrogate pairs recombined).  A lone surrogate escape is rejected here,
since a Lean `Char` is a Unicode scalar value and cannot hold one;
no escape produced by the encoder is a lone surrogate. -/

/-- Numeric value of one hex digit, upper or lower case. -/
def fromHex (c : Char) : Option Nat :=
  let n := c.toNat
  if 48 ≤ n && n ≤ 57 then some (n - 48)
  else if 97 ≤ n && n ≤ 102 then some (n - 87)
  else if 65 ≤ n && n ≤ 70 then some (n - 55)
  else none

/-- Value of a four-hex-digit escape payload. -/
def parseHex4 (a b c d : Char) : Option Nat :=
  match fromHex a, fromHex b, fromHex c, fromHex d with
  | some w, some x, some y, some z => some (4096 * w + 256 * x + 16 * y + z)
  | _, _, _, _ => none

/-- Unescaped character for a single-character escape `\e`. -/
def unescapeShort (e : Char) : Option Char :=
  if e = '"' then some '"'
  else if e = '\\' then some '\\'
  else if e = '/' then some '/'
  else if e = 'b' then some (Char.ofNat 8)
  else if e = 'f' then some (Char.ofNat 12)
  else if e = 'n' then some '\n'
  else if e = 'r' then some (Char.ofNat 13)
  else if e = 't' then some '\t'
  else none

/-- Reader for one logical character of a JSON string body (everything a
string can contain except the closing quote): a plain character at or
above `0x20` other than `"` and `\`, a short escape, a `\uXXXX` escape, or
a surrogate-pair `\uXXXX\uXXXX` escape, which is recombined into the
single character it denotes.  Returns the character and the remaining
input. -/
def scanUnit : List Char → Option (Char × List Char)
  | [] => none
  | c :: rest =>
    if c.toNat = 34 then none
    else if c.toNat = 92 then
      match rest with
      | [] => none
      | e :: rest2 =>
        if e.toNat = 117 then
          match rest2 with
          | a :: b :: c2 :: d :: rest3 =>
            match parseHex4 a b c2 d with
            | none => none
            | some n =>
              if 55296 ≤ n ∧ n ≤ 56319 then
                match rest3 with
                | bs2 :: u2 :: a2 :: b2 :: c3 :: d2 :: rest4 =>
                  if bs2.toNat = 92 ∧ u2.toNat = 117 then
                    match parseHex4 a2 b2 c3 d2 with
                    | none => none
                    | some m =>
                      if 56320 ≤ m ∧ m ≤ 57343 then
                        some (Char.ofNat (65536 + (n - 55296) * 1024 + (m - 56320)), rest4)
                      else none
                  else none
                | _ => none
              else if 56320 ≤ n ∧ n ≤ 57343 then none
              else some (Char.ofNat n, rest3)
          | _ => none
        else
          match unescapeShort e with
          | some ch => some (ch, rest2)
          | none => none
    else if c.toNat < 32 then none
    else some (c, rest)

/-- Reader for the inside of a JSON string literal, starting just after the
opening quote: returns the decoded characters and the input remaining
after the closing quote.  Fails on an unterminated string, an unescaped
control character, an unknown escape, or a lone surrogate escape. -/
def scanString (l : List Char) : Option (List Char × List Char) :=
  match l with
  | [] => none
  | c :: rest =>
    if c.toNat = 34 then some ([], rest)
    else
      match h : scanUnit (c :: rest) with
      | none => none
      | some (ch, r) => (scanString r).map (fun p => (ch :: p.1, p.2))
termination_by l.length
decreasing_by
  unfold scanUnit at h
  repeat' split at h
  all_goals simp_all [List.length]
  all_goals omega

/-- A run of ASCII decimal digits and the rest of the input. -/
def scanDigits : List Char → List Char × List Char
  | [] => ([], [])
  | c :: rest =>
    if 48 ≤ c.toNat && c.toNat ≤ 57 then
      let p := scanDigits rest
      (c :: p.1, p.2)
    else ([], c :: rest)

/-- Value of a digit run, most significant first. -/
def digitsVal (ds : List Char) : Nat :=
  ds.foldl (fun acc c => 10 * acc + (c.toNat - 48)) 0

/-- Reader for a JSON number of the shape the body can contain: optional
minus sign, an integer part without redundant leading zero, optionally a
dot and a non-empty fraction part.  Returns the exact rational value and
the remaining input. -/
def parseNumber (l : List Char) : Option (Rat × List Char) :=
  let sgn := match l with
    | c :: r => if c.toNat = 45 then (true, r) else (false, l)
    | [] => (false, l)
  match scanDigits sgn.2 with
  | ([], _) => none
  | (ds, l2) =>
    if ds.head? = some '0' ∧ ds.length ≠ 1 then none
    else
      let intVal : Rat := (digitsVal ds : Rat)
      match l2 with
      | c :: l3 =>
        if c.toNat = 46 then
          match scanDigits l3 with
          | ([], _) => none
          | (fs, l4) =>
            let mag : Rat := intVal + (digitsVal fs : Rat) / (10 : Rat) ^ fs.length
            some (if sgn.1 then -mag else mag, l4)
        else some (if sgn.1 then -intVal else intVal, l2)
      | [] => some (if sgn.1 then -intVal else intVal, [])

/-- Insignificant JSON whitespace between tokens. -/
def skipWs (l : List Char) : List Char :=
  l.dropWhile (fun c => c.toNat = 32 || c.toNat = 9 || c.toNat = 10 || c.toNat = 13)

/-- Expect one literal character token. -/
def expectChar (c : Char) : List Char → Option (List Char)
  | [] => none
  | x :: rest => if x = c then some rest else none

/-- Reader for the full response body: a JSON object whose first member is
named `score` with a number value and whose second member is named `label`
with a string value, and nothing after the closing brace.  Succeeding on a
body certifies that the body is valid JSON of exactly this shape, with the
keys in this order. -/
def parseScoreLabel (l : List Char) : Option (Rat × List Char) := do
  let l ← expectChar '{' (skipWs l)
  let l ← expectChar '"' (skipWs l)
  let (k1, l) ← scanString l
  if k1 = "score".data then do
    let l ← expectChar ':' (skipWs l)
    let (q, l) ← parseNumber (skipWs l)
    let l ← expectChar ',' (skipWs l)
    let l ← expectChar '"' (skipWs l)
    let (k2, l) ← scanString l
    if k2 = "label".data then do
      let l ← expectChar ':' (skipWs l)
      let l ← expectChar '"' (skipWs l)
      let (lab, l) ← scanString l
      let l ← expectChar '}' (skipWs l)
      if skipWs l = [] then some (q, lab) else none
    else none
  else none

/-! ## Helper lemmas: characters and hex digits -/

theorem char_eq_of_toNat_eq {c d : Char} (h : c.toNat = d.toNat) : c = d := by
  have h2 : Char.ofNat c.toNat = Char.ofNat d.toNat := congrArg Char.ofNat h
  rwa [Char.ofNat_toNat, Char.ofNat_toNat] at h2

theorem char_toNat_valid (c : Char) :
    c.toNat < 55296 ∨ (57343 < c.toNat ∧ c.toNat < 1114112) := c.valid

theorem fromHex_hexDig : ∀ d : Nat, d < 16 → fromHex (hexDig d) = some d := by decide

theorem parseHex4_toHex4 (n : Nat) (h : n < 65536) :
    parseHex4 (hexDig (n / 4096 % 16)) (hexDig (n / 256 % 16)) (hexDig (n / 16 % 16))
      (hexDig (n % 16)) = some n := by
  rw [parseHex4, fromHex_hexDig _ (by omega), fromHex_hexDig _ (by omega),
    fromHex_hexDig _ (by omega), fromHex_hexDig _ (by omega)]
  simp only [Option.some.injEq]
  omega

/-! ## Helper lemmas: `scanUnit` inverts `escapeChar` -/

theorem scanUnit_u_single (a b c2 d : Char) (rest : List Char) (n : Nat)
    (hp : parseHex4 a b c2 d = some n) (hno : ¬(55296 ≤ n ∧ n ≤ 56319))
    (hno2 : ¬(56320 ≤ n ∧ n ≤ 57343)) :
    scanUnit ('\\' :: 'u' :: a :: b :: c2 :: d :: rest) = some (Char.ofNat n, rest) := by
  simp only [scanUnit, hp]
  rw [if_neg (by decide), if_pos (by decide), if_pos (by decide), if_neg hno, if_neg hno2]

theorem scanUnit_u_pair (a b c2 d a2 b2 c3 d2 : Char) (rest : List Char) (n m : Nat)
    (hp : parseHex4 a b c2 d = some n) (hp2 : parseHex4 a2 b2 c3 d2 = some m)
    (hn : 55296 ≤ n ∧ n ≤ 56319) (hm : 56320 ≤ m ∧ m ≤ 57343) :
    scanUnit ('\\' :: 'u' :: a :: b :: c2 :: d :: '\\' :: 'u' :: a2 :: b2 :: c3 :: d2 :: rest) =
      some (Char.ofNat (65536 + (n - 55296) * 1024 + (m - 56320)), rest) := by
  simp only [scanUnit, hp, hp2]
  rw [if_neg (by decide), if_pos (by decide), if_pos (by decide), if_pos hn,
    if_pos (by decide), if_pos hm]

theorem scanUnit_short (e : Char) (ch : Char) (rest : List Char)
    (hu : ¬e.toNat = 117) (h : unescapeShort e = some ch) :
    scanUnit ('\\' :: e :: rest) = some (ch, rest) := by
  simp only [scanUnit, h]
  rw [if_neg (by decide), if_pos (by decide), if_neg hu]

theorem scanUnit_lit (c : Char) (rest : List Char) (h34 : ¬c.toNat = 34)
    (h92 : ¬c.toNat = 92) (h32 : ¬c.toNat < 32) :
    scanUnit (c :: rest) = some (c, rest) := by
  simp only [scanUnit]
  rw [if_neg h34, if_neg h92, if_neg h32]

theorem scanUnit_escapeChar (c : Char) (l : List Char) :
    scanUnit (escapeChar c ++ l) = some (c, l) := by
  have hval := char_toNat_valid c
  by_cases h34 : c.toNat = 34
  · have hc : c = '"' := char_eq_of_toNat_eq (by simpa using h34)
    subst hc
    simp only [escapeChar]
    rw [if_pos (by decide)]
    rw [List.cons_append, List.cons_append, List.nil_append]
    rw [scanUnit_short '"' '"' _ (by decide) (by decide)]
  by_cases h92 : c.toNat = 92
  · have hc : c = '\\' := char_eq_of_toNat_eq (by simpa using h92)
    subst hc
    simp only [escapeChar]
    rw [if_neg (by decide), if_pos (by decide)]
    rw [List.cons_append, List.cons_append, List.nil_append]
    rw [scanUnit_short '\\' '\\' _ (by decide) (by decide)]
  by_cases h8 : c.toNat = 8
  · have hc : c = Char.ofNat 8 := char_eq_of_toNat_eq (by simpa using h8)
    subst hc
    simp only [escapeChar]
    rw [if_neg (by decide), if_neg (by decide), if_pos (by decide)]
    rw [List.cons_append, List.cons_append, List.nil_append]
    rw [scanUnit_short 'b' (Char.ofNat 8) _ (by decide) (by decide)]
  by_cases h9 : c.toNat = 9
  · have hc : c = '\t' := char_eq_of_toNat_eq (by simpa using h9)
    subst hc
    simp only [escapeChar]
    rw [if_neg (by decide), if_neg (by decide), if_neg (by decide), if_pos (by decide)]
    rw [List.cons_append, List.cons_append, List.nil_append]
    rw [scanUnit_short 't' '\t' _ (by decide) (by decide)]
  by_cases h10 : c.toNat = 10
  · have hc : c = '\n' := char_eq_of_toNat_eq (by simpa using h10)
    subst hc
    simp only [escapeChar]
    rw [if_neg (by decide), if_neg (by decide), if_neg (by decide), if_neg (by decide),
      if_pos (by decide)]
    rw [List.cons_append, List.cons_append, List.nil_append]
    rw [scanUnit_short 'n' '\n' _ (by decide) (by decide)]
  by_cases h12 : c.toNat = 12
  · have hc : c = Char.ofNat 12 := char_eq_of_toNat_eq (by simpa using h12)
    subst hc
    simp only [escapeChar]
    rw [if_neg (by decide), if_neg (by decide), if_neg (by decide), if_neg (by decide),
      if_neg (by decide), if_pos (by decide)]
    rw [List.cons_append, List.cons_append, List.nil_append]
    rw [scanUnit_short 'f' (Char.ofNat 12) _ (by decide) (by decide)]
  by_cases h13 : c.toNat = 13
  · have hc : c = Char.ofNat 13 := char_eq_of_toNat_eq (by simpa using h13)
    subst hc
    simp only [escapeChar]
    rw [if_neg (by decide), if_neg (by decide), if_neg (by decide), if_neg (by decide),
      if_neg (by decide), if_neg (by decide), if_pos (by decide)]
    rw [List.cons_append, List.cons_append, List.nil_append]
    rw [scanUnit_short 'r' (Char.ofNat 13) _ (by decide) (by decide)]
  by_cases h32 : c.toNat < 32
  · have h16 := parseHex4_toHex4 c.toNat (by omega)
    simp only [escapeChar, if_neg h34, if_neg h92, if_neg h8, if_neg h9, if_neg h10,
      if_neg h12, if_neg h13, if_pos h32, toHex4, List.cons_append, List.nil_append]
    rw [scanUnit_u_single _ _ _ _ _ _ h16 (by omega) (by omega), Char.ofNat_toNat]
  by_cases h127 : c.toNat < 127
  · simp only [escapeChar, if_neg h34, if_neg h92, if_neg h8, if_neg h9, if_neg h10,
      if_neg h12, if_neg h13, if_neg h32, if_pos h127, List.cons_append, List.nil_append]
    rw [scanUnit_lit _ _ h34 h92 h32]
  by_cases h65536 : c.toNat < 65536
  · have h16 := parseHex4_toHex4 c.toNat (by omega)
    simp only [escapeChar, if_neg h34, if_neg h92, if_neg h8, if_neg h9, if_neg h10,
      if_neg h12, if_neg h13, if_neg h32, if_neg h127, if_pos h65536, toHex4,
      List.cons_append, List.nil_append]
    rw [scanUnit_u_single _ _ _ _ _ _ h16 (by omega) (by omega), Char.ofNat_toNat]
  · have hhi := parseHex4_toHex4 (55296 + (c.toNat - 65536) / 1024) (by omega)
    have hlo := parseHex4_toHex4 (56320 + (c.toNat - 65536) % 1024)
      (by have := Nat.mod_lt (c.toNat - 65536) (y := 1024) (by omega); omega)
    simp only [escapeChar, if_neg h34, if_neg h92, if_neg h8, if_neg h9, if_neg h10,
      if_neg h12, if_neg h13, if_neg h32, if_neg h127, if_neg h65536, toHex4,
      List.cons_append, List.nil_append, List.append_assoc]
    rw [scanUnit_u_pair _ _ _ _ _ _ _ _ _ _ _ hhi hlo (by refine ⟨by omega, by omega⟩)
      (by refine ⟨by omega, by omega⟩)]
    have hmod : 65536 + (55296 + (c.toNat - 65536) / 1024 - 55296) * 1024 +
        (56320 + (c.toNat - 65536) % 1024 - 56320) = c.toNat := by omega
    rw [hmod, Char.ofNat_toNat]

/-! ## Helper lemmas: `scanString` inverts `encodeChars` -/

theorem scanUnit_head_ne_quote {c0 : Char} {rest0 : List Char} {ch : Char} {r : List Char}
    (h : scanUnit (c0 :: rest0) = some (ch, r)) : c0.toNat ≠ 34 := by
  intro hq
  simp [scanUnit, hq] at h

theorem scanString_quote (l : List Char) : scanString ('"' :: l) = some ([], l) := by
  rw [scanString.eq_def]
  simp

theorem scanString_unit {c : Char} {rest : List Char} {ch : Char} {r : List Char}
    (hq : c.toNat ≠ 34) (h : scanUnit (c :: rest) = some (ch, r)) :
    scanString (c :: rest) = (scanString r).map (fun p => (ch :: p.1, p.2)) := by
  rw [scanString.eq_def]
  split
  · simp_all
  · rename_i hcase
    injection hcase with h1 h2
    subst h1; subst h2
    rw [if_neg hq]
    split
    · rename_i heq
      rw [h] at heq
      cases heq
    · rename_i ch' r' heq
      rw [h] at heq
      simp only [Option.some.injEq, Prod.mk.injEq] at heq
      rw [heq.1, heq.2]

theorem scanString_escapeChar (c : Char) (l : List Char) :
    scanString (escapeChar c ++ l) = (scanString l).map (fun p => (c :: p.1, p.2)) := by
  have hu := scanUnit_escapeChar c l
  rcases heq : escapeChar c ++ l with _ | ⟨c0, rest0⟩
  · rw [heq] at hu
    simp [scanUnit] at hu
  · rw [heq] at hu
    rw [scanString_unit (scanUnit_head_ne_quote hu) hu]

/-- Round trip: decoding the escaped form of any string, up to its closing
quote, recovers exactly the original characters. -/
theorem scanString_encodeChars (s : List Char) (rest : List Char) :
    scanString (encodeChars s ++ '"' :: rest) = some (s, rest) := by
  induction s with
  | nil => simp [encodeChars, scanString_quote]
  | cons c s ih =>
    rw [encodeChars, List.append_assoc, scanString_escapeChar, ih]
    rfl

/-! ## Helper lemmas: reading the concrete parts of the body -/

theorem scanString_score_key (r : List Char) :
    scanString ('s' :: 'c' :: 'o' :: 'r' :: 'e' :: '"'::r) = some ("score".data, r) := by
  have he : encodeChars "score".data = "score".data := by decide
  have h := scanString_encodeChars "score".data r
  rw [he] at h
  exact h

theorem scanString_label_key (r : List Char) :
    scanString ('l' :: 'a' :: 'b' :: 'e' :: 'l' :: '"'::r) = some ("label".data, r) := by
  have he : encodeChars "label".data = "label".data := by decide
  have h := scanString_encodeChars "label".data r
  rw [he] at h
  exact h

theorem parseNumber_neg_one (t : List Char) :
    parseNumber ('-' :: '1' :: '.' :: '0' :: ','::t) = some (-1, ','::t) := by
  simp +decide [parseNumber, scanDigits, digitsVal]

theorem parseNumber_zero (t : List Char) :
    parseNumber ('0' :: '.' :: '0' :: ','::t) = some (0, ','::t) := by
  simp +decide [parseNumber, scanDigits, digitsVal]

theorem parseNumber_one (t : List Char) :
    parseNumber ('1' :: '.' :: '0' :: ','::t) = some (1, ','::t) := by
  simp +decide [parseNumber, scanDigits, digitsVal]

/-- Evaluation of the whole-body reader when the score is -1. -/
theorem parseScoreLabel_dumps_neg_one (label : String) (hq : scoreOf label = -1) :
    parseScoreLabel (pyJsonDumps (scoreOf label) label).data =
      some (scoreOf label, label.data) := by
  rw [hq]
  have hL : (pyJsonDumps (-1) label).data =
      '{' :: '"' :: 's' :: 'c' :: 'o' :: 'r' :: 'e' :: '"' :: ':' :: ' ' :: '-' :: '1' :: '.' :: '0' :: ',' :: ' '::
        '"' :: 'l' :: 'a' :: 'b' :: 'e' :: 'l' :: '"' :: ':' :: ' ' :: '"'::
        (encodeChars label.data ++ ('"' :: '}'::[])) := by
    rw [pyJsonDumps, show pyFloatRepr (-1 : Rat) = "-1.0" from by decide]
    simp only [pyJsonEscape, String.data_append, List.append_assoc]
    rfl
  rw [hL, parseScoreLabel]
  simp +decide [skipWs, List.dropWhile, expectChar, scanString_score_key,
    scanString_label_key, scanString_encodeChars, parseNumber_neg_one, Option.bind]

/-- Evaluation of the whole-body reader when the score is 0. -/
theorem parseScoreLabel_dumps_zero (label : String) (hq : scoreOf label = 0) :
    parseScoreLabel (pyJsonDumps (scoreOf label) label).data =
      some (scoreOf label, label.data) := by
  rw [hq]
  have hL : (pyJsonDumps 0 label).data =
      '{' :: '"' :: 's' :: 'c' :: 'o' :: 'r' :: 'e' :: '"' :: ':' :: ' ' :: '0' :: '.' :: '0' :: ',' :: ' '::
        '"' :: 'l' :: 'a' :: 'b' :: 'e' :: 'l' :: '"' :: ':' :: ' ' :: '"'::
        (encodeChars label.data ++ ('"' :: '}'::[])) := by
    rw [pyJsonDumps, show pyFloatRepr (0 : Rat) = "0.0" from by decide]
    simp only [pyJsonEscape, String.data_append, List.append_assoc]
    rfl
  rw [hL, parseScoreLabel]
  simp +decide [skipWs, List.dropWhile, expectChar, scanString_score_key,
    scanString_label_key, scanString_encodeChars, parseNumber_zero, Option.bind]

/-- Evaluation of the whole-body reader when the score is 1. -/
theorem parseScoreLabel_dumps_one (label : String) (hq : scoreOf label = 1) :
    parseScoreLabel (pyJsonDumps (scoreOf label) label).data =
      some (scoreOf label, label.data) := by
  rw [hq]
  have hL : (pyJsonDumps 1 label).data =
      '{' :: '"' :: 's' :: 'c' :: 'o' :: 'r' :: 'e' :: '"' :: ':' :: ' ' :: '1' :: '.' :: '0' :: ',' :: ' '::
        '"' :: 'l' :: 'a' :: 'b' :: 'e' :: 'l' :: '"' :: ':' :: ' ' :: '"'::
        (encodeChars label.data ++ ('"' :: '}'::[])) := by
    rw [pyJsonDumps, show pyFloatRepr (1 : Rat) = "1.0" from by decide]
    simp only [pyJsonEscape, String.data_append, List.append_assoc]
    rfl
  rw [hL, parseScoreLabel]
  simp +decide [skipWs, List.dropWhile, expectChar, scanString_score_key,
    scanString_label_key, scanString_encodeChars, parseNumber_one, Option.bind]

/-! ## The claims -/

/-- C1: the score is computed from the label by the fixed lookup: for label
`left` the score is -1.0, for `center` it is 0.0, for `right` it is 1.0,
and for every other label string it is 0.0.  (The floats -1.0, 0.0, 1.0
are the exact rationals -1, 0, 1.) -/
theorem c1_score_lookup :
    scoreOf "left" = -1 ∧ scoreOf "center" = 0 ∧ scoreOf "right" = 1 ∧
    ∀ label : String, label ≠ "left" → label ≠ "center" → label ≠ "right" →
      scoreOf label = 0 := by
  refine ⟨by decide, by decide, by decide, ?_⟩
  intro label h1 h2 h3
  rw [scoreOf, if_neg h1, if_neg h2, if_neg h3]

theorem c1_score_lookup_witness : scoreOf "foo" = 0 :=
  c1_score_lookup.2.2.2 "foo" (by decide) (by decide) (by decide)

/-- C2: every POST request gets status 200, a `Content-Type:
application/json` header (the code writes the name as `Content-type`;
HTTP field names are case-insensitive), and the JSON object
`{"score": <score>, "label": "<label>"}` built from the process-wide
values as body. -/
theorem c2_post_response (st : ServerState) (req : Request) (hm : req.method = "POST") :
    (handleRequest st req).status = 200 ∧
    hasHeaderCI (handleRequest st req).headers "Content-Type" "application/json" ∧
    (handleRequest st req).body = pyJsonDumps st.score st.label := by
  rw [handleRequest, if_pos hm]
  exact ⟨rfl, ⟨("Content-type", "application/json"), by simp [do_POST], by decide, rfl⟩, rfl⟩

theorem c2_post_response_witness :
    (handleRequest ⟨"left", -1⟩ ⟨"POST", "/", [], []⟩).status = 200 ∧
    hasHeaderCI (handleRequest ⟨"left", -1⟩ ⟨"POST", "/", [], []⟩).headers
      "Content-Type" "application/json" ∧
    (handleRequest ⟨"left", -1⟩ ⟨"POST", "/", [], []⟩).body = pyJsonDumps (-1) "left" :=
  c2_post_response ⟨"left", -1⟩ ⟨"POST", "/", [], []⟩ rfl

/-- C3: the response is independent of the request: any two POST requests
to the same running instance - whatever their paths, headers and bodies -
get status 200 and the very same response; request content does not flow
into the response. -/
theorem c3_response_independent (st : ServerState) (r1 r2 : Request)
    (h1 : r1.method = "POST") (h2 : r2.method = "POST") :
    (handleRequest st r1).status = 200 ∧ (handleRequest st r2).status = 200 ∧
    handleRequest st r1 = handleRequest st r2 := by
  rw [handleRequest, if_pos h1, handleRequest, if_pos h2]
  exact ⟨rfl, rfl, rfl⟩

theorem c3_response_independent_witness :
    (handleRequest ⟨"left", -1⟩ ⟨"POST", "/a", [("X", "1")], [0]⟩).status = 200 ∧
    (handleRequest ⟨"left", -1⟩ ⟨"POST", "/b", [], [255, 0, 17]⟩).status = 200 ∧
    handleRequest ⟨"left", -1⟩ ⟨"POST", "/a", [("X", "1")], [0]⟩ =
      handleRequest ⟨"left", -1⟩ ⟨"POST", "/b", [], [255, 0, 17]⟩ :=
  c3_response_independent ⟨"left", -1⟩ ⟨"POST", "/a", [("X", "1")], [0]⟩
    ⟨"POST", "/b", [], [255, 0, 17]⟩ rfl rfl

/-- C4: whenever the argument count is not exactly 2 plus the program
name (`len(sys.argv) ≠ 3`), the program prints the usage message to
standard output and exits with code 1, binding no socket and starting no
server. -/
theorem c4_usage_exit (argv : List String) (bindOk : Bool) (h : argv.length ≠ 3) :
    main argv bindOk = ProgResult.usageExit "Usage: python mock_llm_service.py <label> <port>" 1 ∧
    (main argv bindOk).socketBound = false ∧ (main argv bindOk).isServing = false := by
  rw [main, if_pos h]
  exact ⟨rfl, rfl, rfl⟩

theorem c4_usage_exit_witness :
    main ["mock_llm_service.py"] true =
      ProgResult.usageExit "Usage: python mock_llm_service.py <label> <port>" 1 ∧
    (main ["mock_llm_service.py"] true).socketBound = false ∧
    (main ["mock_llm_service.py"] true).isServing = false :=
  c4_usage_exit ["mock_llm_service.py"] true (by decide)

/-- C5: two consecutive POST requests to the same running instance get
byte-identical bodies, and that body is a function of the process-wide
label and score alone (`pyJsonDumps st.score st.label`). -/
theorem c5_idempotent (st : ServerState) (r1 r2 : Request)
    (h1 : r1.method = "POST") (h2 : r2.method = "POST") :
    ((serve st r1).2).body = ((serve (serve st r1).1 r2).2).body ∧
    ((serve st r1).2).body = pyJsonDumps st.score st.label := by
  simp [serve, handleRequest, if_pos h1, if_pos h2, do_POST]

theorem c5_idempotent_witness :
    ((serve ⟨"right", 1⟩ ⟨"POST", "/x", [], [1]⟩).2).body =
      ((serve (serve ⟨"right", 1⟩ ⟨"POST", "/x", [], [1]⟩).1 ⟨"POST", "/y", [], []⟩).2).body ∧
    ((serve ⟨"right", 1⟩ ⟨"POST", "/x", [], [1]⟩).2).body = pyJsonDumps 1 "right" :=
  c5_idempotent ⟨"right", 1⟩ ⟨"POST", "/x", [], [1]⟩ ⟨"POST", "/y", [], []⟩ rfl rfl

/-- C6: the process-wide label and score are set exactly once at startup
(`run` attaches `label` and `scoreOf label` to the server before serving)
and handling any sequence of requests leaves the server state - hence both
values - unchanged. -/
theorem c6_state_immutable :
    (∀ (label : String) (port : Int),
      run label port true =
        ProgResult.serving ⟨label, scoreOf label⟩ port
          ("Starting mock LLM service for " ++ label ++ " on port " ++ toString port ++ "...")) ∧
    ∀ (st : ServerState) (reqs : List Request), (serveAll st reqs).1 = st := by
  refine ⟨fun label port => rfl, fun st reqs => ?_⟩
  induction reqs with
  | nil => rfl
  | cons r rs ih => simp [serveAll, serve, ih]

/-- C7: if binding the listener fails, the error propagates uncaught (the
outcome is `ProgResult.bindError`, there being no handler anywhere) and
the process terminates without entering the serve loop; the same outcome
reaches the top level through the `__main__` block. -/
theorem c7_bind_failure (label : String) (port : Int) :
    run label port false = ProgResult.bindError ∧
    (run label port false).isServing = false ∧
    ∀ (a0 portStr : String) (p : Int), pyInt portStr = some p →
      main [a0, label, portStr] false = ProgResult.bindError := by
  refine ⟨by simp [run], by simp [run, ProgResult.isServing], ?_⟩
  intro a0 portStr p hp
  rw [main, if_neg (by simp)]
  simp only [show ([a0, label, portStr] : List String).getD 2 "" = portStr from rfl,
    show ([a0, label, portStr] : List String).getD 1 "" = label from rfl]
  rw [hp]
  simp [run]

theorem c7_bind_failure_witness :
    run "left" 8080 false = ProgResult.bindError ∧
    main ["mock_llm_service.py", "left", "8080"] false = ProgResult.bindError :=
  ⟨(c7_bind_failure "left" 8080).1,
   (c7_bind_failure "left" 8080).2.2 "mock_llm_service.py" "8080" 8080 (by decide)⟩

/-- C8 (implicit): with the right argument count but a port argument that
is not a decimal integer string, `int(sys.argv[2])` raises an uncaught
`ValueError`, so the process terminates with a non-zero status before any
socket is bound.  (The ASCII hypothesis marks the domain on which `pyInt`
models the CPython builtin exactly; CPython additionally accepts non-ASCII
Unicode digits.) -/
theorem c8_bad_port (a0 a1 a2 : String) (bindOk : Bool)
    (hascii : ∀ c ∈ a2.data, c.toNat < 128) (hna : pyInt a2 = none) :
    main [a0, a1, a2] bindOk = ProgResult.valueError a2 ∧
    (main [a0, a1, a2] bindOk).socketBound = false ∧
    (main [a0, a1, a2] bindOk).isServing = false := by
  rw [main, if_neg (by simp)]
  simp only [show ([a0, a1, a2] : List String).getD 2 "" = a2 from rfl]
  rw [hna]
  exact ⟨rfl, rfl, rfl⟩

theorem c8_bad_port_witness :
    (∀ c ∈ ("p0rt" : String).data, c.toNat < 128) ∧ pyInt "p0rt" = none ∧
    main ["mock_llm_service.py", "left", "p0rt"] true = ProgResult.valueError "p0rt" ∧
    (main ["mock_llm_service.py", "left", "p0rt"] true).socketBound = false ∧
    (main ["mock_llm_service.py", "left", "p0rt"] true).isServing = false :=
  ⟨by decide, by decide,
   c8_bad_port "mock_llm_service.py" "left" "p0rt" true (by decide) (by decide)⟩

/-- C9 (implicit): the handler implements only POST, so any other request
method gets the base class's 501 Unsupported-method error rather than the
200 JSON payload. -/
theorem c9_non_post_501 (st : ServerState) (req : Request) (h : req.method ≠ "POST") :
    handleRequest st req = unsupportedMethod req.method ∧
    (handleRequest st req).status = 501 ∧ (handleRequest st req).status ≠ 200 := by
  rw [handleRequest, if_neg h]
  exact ⟨rfl, rfl, by simp [unsupportedMethod]⟩

theorem c9_non_post_501_witness :
    handleRequest ⟨"center", 0⟩ ⟨"GET", "/", [], []⟩ = unsupportedMethod "GET" ∧
    (handleRequest ⟨"center", 0⟩ ⟨"GET", "/", [], []⟩).status = 501 ∧
    (handleRequest ⟨"center", 0⟩ ⟨"GET", "/", [], []⟩).status ≠ 200 :=
  c9_non_post_501 ⟨"center", 0⟩ ⟨"GET", "/", [], []⟩ (by decide)

/-- C10 (implicit): for every label string - including ones needing JSON
escaping - the body the handler writes is valid JSON of the exact shape
`{"score": <number>, "label": "<string>"}` with the keys in that order
(`parseScoreLabel` accepts nothing else), its number field is the score,
and its label field decodes back to exactly the input label. -/
theorem c10_body_roundtrip (label : String) (req : Request) :
    parseScoreLabel ((do_POST ⟨label, scoreOf label⟩ req).body).data =
      some (scoreOf label, label.data) := by
  show parseScoreLabel (pyJsonDumps (scoreOf label) label).data =
    some (scoreOf label, label.data)
  by_cases h1 : label = "left"
  · exact parseScoreLabel_dumps_neg_one label (by rw [h1]; decide)
  by_cases h2 : label = "right"
  · exact parseScoreLabel_dumps_one label (by rw [h2]; decide)
  by_cases h3 : label = "center"
  · exact parseScoreLabel_dumps_zero label (by rw [h3]; decide)
  · exact parseScoreLabel_dumps_zero label
      (by rw [scoreOf, if_neg h1, if_neg h3, if_neg h2])

end MockLLM
